import Mathlib

/-!
Shallow embedding of the session-state handlers of `src/streamlit_app.py`
(devbm7/dummy-content-generator).

Network interaction is modelled by passing the remote response to each
handler as an explicit oracle argument and recording the list of calls the
handler issues; the Streamlit session state (`st.session_state`, initialised
at lines 95-117) is an explicit record that every handler maps to a new
record. A Python value that can be absent or `None` is an `Option`; Python
truthiness tests (`if x:`) are embedded by explicit truthiness functions.
-/

/-- JSON-like values as they appear in API response bodies. -/
inductive JVal where
  | jstr (s : String)
  | jint (n : Int)
  | jbool (b : Bool)
  | jnull
  | jarr (elems : List JVal)
  deriving Repr

/-- Decidable equality for `JVal` (the deriving handler does not support the
nested `List` occurrence, so the instance is written out). -/
def JVal.deq : (a b : JVal) → Decidable (a = b)
  | jstr x, jstr y =>
      match String.decEq x y with
      | isTrue h => isTrue (by rw [h])
      | isFalse h => isFalse (by intro hc; cases hc; exact h rfl)
  | jint x, jint y =>
      match decEq x y with
      | isTrue h => isTrue (by rw [h])
      | isFalse h => isFalse (by intro hc; cases hc; exact h rfl)
  | jbool x, jbool y =>
      match decEq x y with
      | isTrue h => isTrue (by rw [h])
      | isFalse h => isFalse (by intro hc; cases hc; exact h rfl)
  | jnull, jnull => isTrue rfl
  | jarr xs, jarr ys =>
      match deqList xs ys with
      | isTrue h => isTrue (by rw [h])
      | isFalse h => isFalse (by intro hc; cases hc; exact h rfl)
  | jstr _, jint _ => isFalse (by intro h; cases h)
  | jstr _, jbool _ => isFalse (by intro h; cases h)
  | jstr _, jnull => isFalse (by intro h; cases h)
  | jstr _, jarr _ => isFalse (by intro h; cases h)
  | jint _, jstr _ => isFalse (by intro h; cases h)
  | jint _, jbool _ => isFalse (by intro h; cases h)
  | jint _, jnull => isFalse (by intro h; cases h)
  | jint _, jarr _ => isFalse (by intro h; cases h)
  | jbool _, jstr _ => isFalse (by intro h; cases h)
  | jbool _, jint _ => isFalse (by intro h; cases h)
  | jbool _, jnull => isFalse (by intro h; cases h)
  | jbool _, jarr _ => isFalse (by intro h; cases h)
  | jnull, jstr _ => isFalse (by intro h; cases h)
  | jnull, jint _ => isFalse (by intro h; cases h)
  | jnull, jbool _ => isFalse (by intro h; cases h)
  | jnull, jarr _ => isFalse (by intro h; cases h)
  | jarr _, jstr _ => isFalse (by intro h; cases h)
  | jarr _, jint _ => isFalse (by intro h; cases h)
  | jarr _, jbool _ => isFalse (by intro h; cases h)
  | jarr _, jnull => isFalse (by intro h; cases h)
where
  deqList : (xs ys : List JVal) → Decidable (xs = ys)
  | [], [] => isTrue rfl
  | [], _ :: _ => isFalse (by intro h; cases h)
  | _ :: _, [] => isFalse (by intro h; cases h)
  | x :: xs, y :: ys =>
      match JVal.deq x y, deqList xs ys with
      | isTrue h1, isTrue h2 => isTrue (by rw [h1, h2])
      | isFalse h1, _ => isFalse (by intro hc; cases hc; exact h1 rfl)
      | _, isFalse h2 => isFalse (by intro hc; cases hc; exact h2 rfl)

instance : DecidableEq JVal := JVal.deq

/-- A JSON object body, as an association list (a Python dict). -/
abbrev JObj := List (String × JVal)

/-- Python dict lookup `o[key]` / `key in o`: first binding of the key. -/
def dictGet (o : JObj) (key : String) : Option JVal :=
  match o with
  | [] => none
  | (k, v) :: rest => if k = key then some v else dictGet rest key

/-- Python truthiness of a possibly-absent JSON value (`if x:`). -/
def pyTruthyVal : Option JVal → Bool
  | none => false
  | some (JVal.jstr s) => decide (s ≠ "")
  | some (JVal.jint n) => decide (n ≠ 0)
  | some (JVal.jbool b) => b
  | some JVal.jnull => false
  | some (JVal.jarr l) => !l.isEmpty

/-- Python truthiness of a possibly-absent dict (`if result:`). -/
def pyTruthyObj : Option JObj → Bool
  | none => false
  | some o => !o.isEmpty

/-- How a Python value renders inside an f-string. -/
def jvalDisplay : JVal → String
  | JVal.jstr s => s
  | JVal.jint n => toString n
  | JVal.jbool b => if b then "True" else "False"
  | JVal.jnull => "None"
  | JVal.jarr _ => "[...]"

/-- One user-defined column (the dict appended at lines 201-206): name,
type, optional description, optional constraints mapping. Constraint values
are the numbers typed into the bound widgets. -/
structure ColumnSpec where
  name : String
  type : String
  description : Option String
  constraints : Option (List (String × Int))
  deriving DecidableEq, Repr

/-- The per-session mutable state bag (lines 95-117). `rows_detected` is not
initialised there; it is first created by the upload handler (line 391), so
it is an `Option` that starts out absent. -/
structure SessionState where
  columns : List ColumnSpec
  task_id : Option JVal
  data : Option JObj
  csv_file : Option JVal
  uploaded_file_id : Option JVal
  uploaded_file_name : Option JVal
  uploaded_columns : Option JVal
  append_task_id : Option JVal
  rows_detected : Option JVal
  deriving DecidableEq, Repr

/-- Initial session state (lines 95-117). -/
def initialSessionState : SessionState :=
  { columns := [], task_id := none, data := none, csv_file := none,
    uploaded_file_id := none, uploaded_file_name := none,
    uploaded_columns := none, append_task_id := none, rows_detected := none }

/-- Sidebar configuration widgets (lines 128-145). -/
structure SidebarConfig where
  provider : String
  model : String
  num_rows : Nat
  batch_size : Nat
  parallel : Bool
  deriving DecidableEq, Repr

/-- The 16 data kinds offered by the column-type selectbox (lines 76-80). -/
def DATA_TYPES : List String :=
  ["string", "integer", "float", "boolean", "date", "datetime",
   "email", "phone", "address", "name", "country", "state",
   "city", "zip", "url", "list"]

/-- Provider to model-list mapping (lines 83-92). -/
def MODEL_PROVIDERS : List (String × List String) :=
  [("ollama", ["gemma3:latest", "llama3.2:1b"]),
   ("google", ["gemini-2.0-flash"])]

/-- Body of the create-generation-job request (lines 226-233). -/
structure GenerateRequest where
  columns : List ColumnSpec
  rows : Nat
  model : String
  model_provider : String
  batch_size : Nat
  parallel : Bool
  deriving DecidableEq, Repr

/-- Body of the append-job request (lines 437-444). -/
structure AppendRequest where
  file_id : JVal
  rows : Nat
  model : String
  model_provider : String
  batch_size : Nat
  parallel : Bool
  deriving DecidableEq, Repr

/-- One outgoing network call, tagged by endpoint. -/
inductive ApiCall where
  | generate (req : GenerateRequest)
  | appendData (req : AppendRequest)
  | taskStatus (task_id : Option JVal)
  | fetchData (task_id : Option JVal)
  | deleteTask (task_id : Option JVal)
  | convertCsv (task_id : Option JVal)
  | listTasks
  | uploadCsv
  | downloadAppended (file_id : Option JVal)
  deriving DecidableEq, Repr

/-- Outcome of one HTTP round trip as seen by the client. -/
inductive HttpOutcome where
  | success (body : JObj)
  | httpError (status : Nat) (text : String)
  | transportError (text : String)
  deriving DecidableEq, Repr

/-- The `call_api` wrapper (lines 54-73): a 2xx response yields its JSON
body; `raise_for_status` on a non-2xx status and any transport exception are
caught by the `except` clause, an `API Error: ...` message is shown, and the
caller receives `None`. First component: returned value; second component:
the error message displayed, if any. -/
def call_api : HttpOutcome → Option JObj × Option String
  | HttpOutcome.success body => (some body, none)
  | HttpOutcome.httpError _ text => (none, some ("API Error: " ++ text))
  | HttpOutcome.transportError text => (none, some ("API Error: " ++ text))

/-- The Generate Data handler (lines 220-241). If the column list is empty
it only shows an error and issues no call; otherwise it packages the request
and issues exactly one create-job call, and stores the returned `task_id`
when the response is a truthy dict containing that key. -/
def generateData (s : SessionState) (cfg : SidebarConfig) (resp : Option JObj) :
    SessionState × List ApiCall :=
  if s.columns.isEmpty then
    (s, [])
  else
    let req : GenerateRequest :=
      { columns := s.columns, rows := cfg.num_rows, model := cfg.model,
        model_provider := cfg.provider, batch_size := cfg.batch_size,
        parallel := cfg.parallel }
    let s2 :=
      match resp with
      | some o =>
          if !o.isEmpty && (dictGet o "task_id").isSome then
            { s with task_id := dictGet o "task_id" }
          else s
      | none => s
    (s2, [ApiCall.generate req])

/-- What one render of a status-driven section does, as seen by the user. -/
inductive RenderOutcome where
  | crash (err : String)
  | noRender
  | warnAndRepoll (waitSeconds : Nat)
  | completedView
  | errorShown (msg : String)
  | successShown (msg : String)
  | previewShown (contents : String)
  deriving DecidableEq, Repr

/-- The text of `task_status.get("message", "Unknown error")` as it appears
inside the f-string at line 320. -/
def statusMessage (o : JObj) : String :=
  match dictGet o "message" with
  | some v => jvalDisplay v
  | none => "Unknown error"

/-- The status branches of the Results tab (lines 249-320), applied to the
value `call_api` returned for the status poll. A falsy result renders
nothing; a truthy dict is first indexed as `task_status["status"]`
(line 252), which raises an uncaught KeyError when the key is absent;
otherwise the branches map `completed`, `running`/`pending` (a 3 second wait
then a rerun), and `failed` (an error message carrying the remote-supplied
message text); any other status value falls through and renders nothing
further. -/
def resultsStatusBranch (task_status : Option JObj) : RenderOutcome :=
  match task_status with
  | none => RenderOutcome.noRender
  | some o =>
    if o.isEmpty then RenderOutcome.noRender
    else
      match dictGet o "status" with
      | none => RenderOutcome.crash "KeyError: status"
      | some sv =>
        if sv = JVal.jstr "completed" then RenderOutcome.completedView
        else if sv = JVal.jstr "running" ∨ sv = JVal.jstr "pending" then
          RenderOutcome.warnAndRepoll 3
        else if sv = JVal.jstr "failed" then
          RenderOutcome.errorShown ("Generation failed: " ++ statusMessage o)
        else RenderOutcome.noRender

/-- The self-driven polling loop: each rerun issued at line 317 re-enters
the same status poll with the next oracle response; any other outcome issues
no rerun, so the loop stops there. -/
def pollLoop : List (Option JObj) → List RenderOutcome
  | [] => []
  | r :: rs =>
    match resultsStatusBranch r with
    | RenderOutcome.warnAndRepoll n => RenderOutcome.warnAndRepoll n :: pollLoop rs
    | o => [o]

/-- The fetch guard inside the `completed` branch (lines 254-258): the
result-fetch call fires only when the cached data is falsy, and the cache is
then overwritten with whatever `call_api` returned. -/
def completedFetch (data : Option JObj) (task_id : Option JVal) (resp : Option JObj) :
    Option JObj × List ApiCall :=
  if pyTruthyObj data then (data, [])
  else (resp, [ApiCall.fetchData task_id])

/-- Total number of result-fetch calls over a sequence of renders of the
`completed` branch, threading the data cache through. -/
def completedFetchCalls (data : Option JObj) (task_id : Option JVal) :
    List (Option JObj) → Nat
  | [] => 0
  | r :: rs =>
    ((completedFetch data task_id r).2).length +
      completedFetchCalls (completedFetch data task_id r).1 task_id rs

/-- The Cancel Task handler (lines 152-157): issues one job-deletion call,
ignores its outcome entirely, and clears task handle, cached data and CSV
reference. -/
def cancelTask (s : SessionState) (deleteOutcome : HttpOutcome) :
    SessionState × List ApiCall :=
  ({ s with task_id := none, data := none, csv_file := none },
   [ApiCall.deleteTask s.task_id])

/-- The Load Selected Task handler (lines 353-357): re-attaches to an
existing task id and invalidates the cached result and CSV reference. -/
def loadSelectedTask (s : SessionState) (selected_task_id : JVal) : SessionState :=
  { s with task_id := some selected_task_id, data := none, csv_file := none }

/-- The Clear All Columns handler (lines 215-217). -/
def clearAllColumns (s : SessionState) : SessionState :=
  { s with columns := [] }

/-- The constraints dict built by the Advanced Constraints expander
(lines 179-196): the numeric branch attaches `ge`/`le` from the bound
widgets that were filled in, the string branch attaches
`min_length`/`max_length`, and every other data type builds no entry at
all (its branch renders no bound widgets). -/
def buildConstraints (column_type : String)
    (min_value max_value min_length max_length : Option Int) :
    List (String × Int) :=
  if column_type = "integer" ∨ column_type = "float" then
    (match min_value with | some v => [("ge", v)] | none => []) ++
    (match max_value with | some v => [("le", v)] | none => [])
  else if column_type = "string" then
    (match min_length with | some v => [("min_length", v)] | none => []) ++
    (match max_length with | some v => [("max_length", v)] | none => [])
  else []

/-- The Add Column handler (lines 198-206): fires only when the submitted
name is truthy (non-empty) and appends one dict to the column list; an
empty description is stored as `None`, and an empty constraints dict is
stored as `None`. -/
def addColumnSpec (s : SessionState) (column_name column_type column_description : String)
    (min_value max_value min_length max_length : Option Int) : SessionState :=
  if column_name ≠ "" then
    let cs := buildConstraints column_type min_value max_value min_length max_length
    { s with columns := s.columns ++
        [{ name := column_name, type := column_type,
           description := if column_description ≠ "" then some column_description else none,
           constraints := if cs.isEmpty then none else some cs }] }
  else s

/-- Constraint keys meaningful for a data type, as the claim C8 words them:
`ge`/`le` for the numeric kinds, `min_length`/`max_length` for strings,
nothing for the remaining kinds. -/
def allowedConstraintKeys (column_type : String) : List String :=
  if column_type = "integer" ∨ column_type = "float" then ["ge", "le"]
  else if column_type = "string" then ["min_length", "max_length"]
  else []

/-- The default of the rows-to-append widget (lines 419-424):
`min(10, max(1, int(rows_detected * 0.1)))`. Python computes
`int(n * 0.1)` through binary floating point; for every row count below
2 to the 50 this truncation equals `n / 10` on naturals, so it is embedded
as `Nat` division. -/
def rowsToAppendDefault (rows_detected : Nat) : Nat :=
  min 10 (max 1 (rows_detected / 10))

/-- Default text of the LLM Model input inside the append form (line 416). -/
def appendFormModelDefault : String := "gemma3:latest"

/-- Model list of a provider according to `MODEL_PROVIDERS`. -/
def providerModels (provider : String) : List String :=
  (List.lookup provider MODEL_PROVIDERS).getD []

/-- The Generate and Append Data handler (lines 434-452). The enclosing
section only renders when `uploaded_file_id` is truthy (line 398). The
request takes `model` from the free-text form input (line 416, which
shadows the sidebar model) and `model_provider` from the sidebar provider
selectbox; one append-job call is issued and a truthy response dict
containing `task_id` is stored as the append task handle. -/
def appendDataSubmit (s : SessionState) (form_model : String) (provider : String)
    (rows_to_append batch_size : Nat) (parallel : Bool) (resp : Option JObj) :
    SessionState × List ApiCall :=
  match s.uploaded_file_id with
  | none => (s, [])
  | some fid =>
    if pyTruthyVal (some fid) then
      let req : AppendRequest :=
        { file_id := fid, rows := rows_to_append, model := form_model,
          model_provider := provider, batch_size := batch_size,
          parallel := parallel }
      let s2 :=
        match resp with
        | some o =>
            if !o.isEmpty && (dictGet o "task_id").isSome then
              { s with append_task_id := dictGet o "task_id" }
            else s
        | none => s
      (s2, [ApiCall.appendData req])
    else (s, [])

/-- Outcome of the raw `requests.post` issued by the upload handler at
line 384 (this call is not routed through `call_api` and sits in no
try block, so a transport exception propagates). -/
inductive UploadOutcome where
  | response (status_code : Nat) (body : JObj) (text : String)
  | transportRaise (err : String)
  deriving DecidableEq, Repr

/-- The Process CSV handler (lines 379-395): a transport exception is
uncaught; a 200 response is indexed field by field (lines 388-391), each
missing key raising an uncaught KeyError after the earlier assignments
already happened; a non-200 response is shown as an inline error. -/
def processCsvUpload (s : SessionState) (out : UploadOutcome) :
    SessionState × RenderOutcome :=
  match out with
  | UploadOutcome.transportRaise err => (s, RenderOutcome.crash err)
  | UploadOutcome.response 200 body _ =>
    match dictGet body "file_id" with
    | none => (s, RenderOutcome.crash "KeyError: file_id")
    | some fid =>
      match dictGet body "filename" with
      | none => ({ s with uploaded_file_id := some fid },
                 RenderOutcome.crash "KeyError: filename")
      | some fn =>
        match dictGet body "column_info" with
        | none => ({ s with uploaded_file_id := some fid,
                            uploaded_file_name := some fn },
                   RenderOutcome.crash "KeyError: column_info")
        | some ci =>
          match dictGet body "row_count" with
          | none => ({ s with uploaded_file_id := some fid,
                              uploaded_file_name := some fn,
                              uploaded_columns := some ci },
                     RenderOutcome.crash "KeyError: row_count")
          | some rc =>
            ({ s with uploaded_file_id := some fid,
                      uploaded_file_name := some fn,
                      uploaded_columns := some ci,
                      rows_detected := some rc },
             RenderOutcome.successShown
               ("File processed successfully! Detected " ++ jvalDisplay rc ++ " rows."))
  | UploadOutcome.response _ _ text =>
    (s, RenderOutcome.errorShown ("Error processing file: " ++ text))

/-- Result of the local whole-file read backing the CSV preview. -/
inductive FileReadResult where
  | ok (contents : String)
  | ioError (err : String)
  deriving DecidableEq, Repr

/-- The CSV preview and download section (lines 292-310): it renders only
when a CSV reference is set, and its whole body sits in a try block whose
except clause turns any local file error into an inline message. -/
def csvPreview (csv_file : Option JVal) (r : FileReadResult) : RenderOutcome :=
  if pyTruthyVal csv_file then
    match r with
    | FileReadResult.ok contents => RenderOutcome.previewShown contents
    | FileReadResult.ioError err =>
        RenderOutcome.errorShown ("Error reading CSV file: " ++ err)
  else RenderOutcome.noRender

theorem dictGet_some_not_isEmpty (o : JObj) (k : String) (v : JVal)
    (h : dictGet o k = some v) : o.isEmpty = false := by
  cases o with
  | nil => simp [dictGet] at h
  | cons hd tl => simp [List.isEmpty]

/-- C1: with a non-empty column list the submit handler issues exactly one
create-job call carrying the sidebar configuration and the current columns,
and on a well-formed response (a dict containing `task_id`) the stored task
handle equals the returned identifier; with an empty column list it issues
no network call and leaves the state unchanged. -/
theorem c1_generate_submit (s : SessionState) (cfg : SidebarConfig) (resp : Option JObj) :
    (s.columns = [] → generateData s cfg resp = (s, [])) ∧
    (s.columns ≠ [] →
      (generateData s cfg resp).2 =
        [ApiCall.generate
          { columns := s.columns, rows := cfg.num_rows, model := cfg.model,
            model_provider := cfg.provider, batch_size := cfg.batch_size,
            parallel := cfg.parallel }]) ∧
    (∀ o tid, s.columns ≠ [] → resp = some o → dictGet o "task_id" = some tid →
      (generateData s cfg resp).1.task_id = some tid) := by
  refine ⟨?_, ?_, ?_⟩
  · intro h
    simp [generateData, h]
  · intro h
    simp [generateData, List.isEmpty_iff, h]
  · intro o tid hne hresp hget
    subst hresp
    have hemp := dictGet_some_not_isEmpty o "task_id" tid hget
    simp [generateData, List.isEmpty_iff, hne, hemp, hget]

/-- C1 witness: a concrete one-column submit stores the returned handle. -/
theorem c1_generate_submit_witness :
    (generateData
      { initialSessionState with
        columns := [{ name := "age", type := "integer", description := none,
                      constraints := some [("ge", 18)] }] }
      { provider := "ollama", model := "gemma3:latest", num_rows := 5,
        batch_size := 10, parallel := false }
      (some [("task_id", JVal.jstr "t1")])).1.task_id = some (JVal.jstr "t1") :=
  (c1_generate_submit _ _ _).2.2 [("task_id", JVal.jstr "t1")] (JVal.jstr "t1")
    (by simp) rfl (by simp [dictGet])

/-- C2: a poll of a truthy status response maps the remote status directly:
pending or running renders a 3 second wait and re-enters the poll loop;
completed stops the loop and hands over to result handling; failed stops
the loop and shows an error whose text contains the remote-supplied
message, issuing no further poll. -/
theorem c2_poll_status_mapping (o : JObj) (rs : List (Option JObj)) :
    ((dictGet o "status" = some (JVal.jstr "pending") ∨
      dictGet o "status" = some (JVal.jstr "running")) →
       resultsStatusBranch (some o) = RenderOutcome.warnAndRepoll 3 ∧
       pollLoop (some o :: rs) = RenderOutcome.warnAndRepoll 3 :: pollLoop rs) ∧
    (dictGet o "status" = some (JVal.jstr "completed") →
       resultsStatusBranch (some o) = RenderOutcome.completedView ∧
       pollLoop (some o :: rs) = [RenderOutcome.completedView]) ∧
    (∀ m, dictGet o "status" = some (JVal.jstr "failed") →
       dictGet o "message" = some (JVal.jstr m) →
       resultsStatusBranch (some o) =
         RenderOutcome.errorShown ("Generation failed: " ++ m) ∧
       (∃ pre post, "Generation failed: " ++ m = pre ++ m ++ post) ∧
       pollLoop (some o :: rs) =
         [RenderOutcome.errorShown ("Generation failed: " ++ m)]) := by
  refine ⟨?_, ?_, ?_⟩
  · rintro (hget | hget) <;>
      [have hemp := dictGet_some_not_isEmpty o "status" (JVal.jstr "pending") hget;
       have hemp := dictGet_some_not_isEmpty o "status" (JVal.jstr "running") hget] <;>
      simp [resultsStatusBranch, pollLoop, hemp, hget]
  · intro hget
    have hemp := dictGet_some_not_isEmpty o "status" (JVal.jstr "completed") hget
    simp [resultsStatusBranch, pollLoop, hemp, hget]
  · intro m hget hmsg
    have hemp := dictGet_some_not_isEmpty o "status" (JVal.jstr "failed") hget
    refine ⟨?_, ⟨"Generation failed: ", "", by simp⟩, ?_⟩ <;>
      simp [resultsStatusBranch, pollLoop, statusMessage, jvalDisplay, hemp, hget, hmsg]

/-- C2 witness: a failed poll with message text shows that text and stops
the loop, and a pending poll re-enters it. -/
theorem c2_poll_status_mapping_witness :
    pollLoop [some [("status", JVal.jstr "failed"),
                    ("message", JVal.jstr "model timeout")]] =
      [RenderOutcome.errorShown "Generation failed: model timeout"] ∧
    resultsStatusBranch (some [("status", JVal.jstr "pending")]) =
      RenderOutcome.warnAndRepoll 3 :=
  ⟨((c2_poll_status_mapping
      [("status", JVal.jstr "failed"), ("message", JVal.jstr "model timeout")]
      []).2.2 "model timeout" (by simp [dictGet]) (by simp [dictGet])).2.2,
   ((c2_poll_status_mapping [("status", JVal.jstr "pending")] []).1
      (Or.inl (by simp [dictGet]))).1⟩

/-- C3: once the result cache for the active task handle is truthy, every
further render of the completed branch issues zero result-fetch calls; and
starting from an empty cache, a first completed render whose fetch returns
a truthy body makes the whole render sequence issue exactly one
result-fetch call. -/
theorem c3_fetch_result_idempotent (task_id : Option JVal) :
    (∀ d rs, pyTruthyObj d = true → completedFetchCalls d task_id rs = 0) ∧
    (∀ r rs, pyTruthyObj (some r) = true →
       completedFetchCalls none task_id (some r :: rs) = 1) := by
  have cached : ∀ rs d, pyTruthyObj d = true → completedFetchCalls d task_id rs = 0 := by
    intro rs
    induction rs with
    | nil => intro d hd; simp [completedFetchCalls]
    | cons r rs ih =>
        intro d hd
        simp [completedFetchCalls, completedFetch, hd, ih d hd]
  refine ⟨fun d rs => cached rs d, ?_⟩
  intro r rs hr
  simp [completedFetchCalls, completedFetch, pyTruthyObj, cached rs (some r) hr]

/-- C3 witness: with a cached body no call is issued across two further
renders, and a fresh handle whose first fetch succeeds costs one call. -/
theorem c3_fetch_result_idempotent_witness :
    completedFetchCalls (some [("data", JVal.jarr [])]) (some (JVal.jstr "t1"))
      [some [("data", JVal.jarr [])], none] = 0 ∧
    completedFetchCalls none (some (JVal.jstr "t1"))
      [some [("data", JVal.jarr [])], some [("data", JVal.jarr [])], none] = 1 :=
  ⟨(c3_fetch_result_idempotent (some (JVal.jstr "t1"))).1
      (some [("data", JVal.jarr [])]) [some [("data", JVal.jarr [])], none] (by rfl),
   (c3_fetch_result_idempotent (some (JVal.jstr "t1"))).2
      [("data", JVal.jarr [])] [some [("data", JVal.jarr [])], none] (by rfl)⟩

/-- C4: the cancel handler issues exactly one job-deletion call and, in
every prior state and for every outcome of that call (2xx, non-2xx, or a
transport failure), clears the task handle, the cached result and the CSV
reference, leaving the other state slices untouched. -/
theorem c4_cancel_always_clears (s : SessionState) (deleteOutcome : HttpOutcome) :
    (cancelTask s deleteOutcome).1.task_id = none ∧
    (cancelTask s deleteOutcome).1.data = none ∧
    (cancelTask s deleteOutcome).1.csv_file = none ∧
    (cancelTask s deleteOutcome).2 = [ApiCall.deleteTask s.task_id] ∧
    (cancelTask s deleteOutcome).1.columns = s.columns ∧
    (cancelTask s deleteOutcome).1.uploaded_file_id = s.uploaded_file_id ∧
    (cancelTask s deleteOutcome).1.uploaded_file_name = s.uploaded_file_name ∧
    (cancelTask s deleteOutcome).1.uploaded_columns = s.uploaded_columns ∧
    (cancelTask s deleteOutcome).1.append_task_id = s.append_task_id ∧
    (cancelTask s deleteOutcome).1.rows_detected = s.rows_detected := by
  simp [cancelTask]

theorem generateData_preserves_caches (s : SessionState) (cfg : SidebarConfig)
    (resp : Option JObj) :
    (generateData s cfg resp).1.data = s.data ∧
    (generateData s cfg resp).1.csv_file = s.csv_file := by
  unfold generateData
  by_cases h : s.columns.isEmpty
  · simp [h]
  · cases resp with
    | none => simp [h]
    | some o =>
        by_cases h2 : (!o.isEmpty && (dictGet o "task_id").isSome) = true <;>
          simp [h, h2]

/-- C5 counterexample: a submit with cached data from a previous task and a
well-formed response changes the active task handle but leaves the cached
result and CSV reference in place, so the claim that every handle change
invalidates them is false on the submit path. -/
theorem c5_counterexample :
    (generateData
        { initialSessionState with
          columns := [{ name := "age", type := "integer", description := none,
                        constraints := none }],
          task_id := some (JVal.jstr "t1"),
          data := some [("data", JVal.jarr [])],
          csv_file := some (JVal.jstr "old.csv") }
        { provider := "ollama", model := "gemma3:latest", num_rows := 5,
          batch_size := 10, parallel := false }
        (some [("task_id", JVal.jstr "t2")])).1.task_id = some (JVal.jstr "t2") ∧
    (generateData
        { initialSessionState with
          columns := [{ name := "age", type := "integer", description := none,
                        constraints := none }],
          task_id := some (JVal.jstr "t1"),
          data := some [("data", JVal.jarr [])],
          csv_file := some (JVal.jstr "old.csv") }
        { provider := "ollama", model := "gemma3:latest", num_rows := 5,
          batch_size := 10, parallel := false }
        (some [("task_id", JVal.jstr "t2")])).1.data = some [("data", JVal.jarr [])] ∧
    (generateData
        { initialSessionState with
          columns := [{ name := "age", type := "integer", description := none,
                        constraints := none }],
          task_id := some (JVal.jstr "t1"),
          data := some [("data", JVal.jarr [])],
          csv_file := some (JVal.jstr "old.csv") }
        { provider := "ollama", model := "gemma3:latest", num_rows := 5,
          batch_size := 10, parallel := false }
        (some [("task_id", JVal.jstr "t2")])).1.csv_file = some (JVal.jstr "old.csv") :=
  ⟨rfl, rfl, rfl⟩

/-- C5 amended: loading an existing task id clears the cached result data
and the CSV reference while re-pointing the task handle, but submitting a
new generation job leaves both caches untouched (only the handle is
updated). -/
theorem c5_invalidate_on_load_only (s : SessionState) (tid : JVal)
    (cfg : SidebarConfig) (resp : Option JObj) :
    (loadSelectedTask s tid).task_id = some tid ∧
    (loadSelectedTask s tid).data = none ∧
    (loadSelectedTask s tid).csv_file = none ∧
    (generateData s cfg resp).1.data = s.data ∧
    (generateData s cfg resp).1.csv_file = s.csv_file :=
  ⟨rfl, rfl, rfl, (generateData_preserves_caches s cfg resp).1,
   (generateData_preserves_caches s cfg resp).2⟩

/-- C6 counterexample: two remote-boundary failures that are not converted
to an inline message: a 2xx status-poll response missing the `status` field
raises an uncaught KeyError at line 252, and a transport failure of the
raw upload request at line 384 propagates uncaught. -/
theorem c6_counterexample :
    resultsStatusBranch (some [("result_file", JVal.jnull)]) =
      RenderOutcome.crash "KeyError: status" ∧
    (processCsvUpload initialSessionState
        (UploadOutcome.transportRaise "ConnectionError")).2 =
      RenderOutcome.crash "ConnectionError" :=
  ⟨rfl, rfl⟩

/-- C6 amended: failures on calls routed through `call_api` (non-2xx status
and transport failures) are converted to an inline API-error message with a
`None` return and never crash; the local file read behind the CSV preview
converts its errors to an inline message; and the status poll render cannot
crash when the response does contain the `status` field — but a response
missing that field, or a transport failure of the raw upload request, is
not caught. -/
theorem c6_error_conversion :
    (∀ code text, call_api (HttpOutcome.httpError code text) =
        (none, some ("API Error: " ++ text))) ∧
    (∀ text, call_api (HttpOutcome.transportError text) =
        (none, some ("API Error: " ++ text))) ∧
    (∀ body, call_api (HttpOutcome.success body) = (some body, none)) ∧
    (∀ f err, pyTruthyVal f = true →
        csvPreview f (FileReadResult.ioError err) =
          RenderOutcome.errorShown ("Error reading CSV file: " ++ err)) ∧
    (∀ o e, (dictGet o "status").isSome →
        resultsStatusBranch (some o) ≠ RenderOutcome.crash e) := by
  refine ⟨fun _ _ => rfl, fun _ => rfl, fun _ => rfl, ?_, ?_⟩
  · intro f err hf
    simp [csvPreview, hf]
  · intro o e hs
    rcases h : dictGet o "status" with _ | sv
    · rw [h] at hs; simp at hs
    · by_cases he : o.isEmpty
      · simp [resultsStatusBranch, he]
      · simp only [resultsStatusBranch, he, if_false, h, Bool.false_eq_true]
        split_ifs <;> simp

/-- C6 amended witness: a 404 on the status poll is converted to an API
error message, and a truthy poll response that has a `status` field does
not crash. -/
theorem c6_error_conversion_witness :
    call_api (HttpOutcome.httpError 404 "404 Client Error") =
      (none, some "API Error: 404 Client Error") ∧
    resultsStatusBranch (some [("status", JVal.jstr "weird")]) ≠
      RenderOutcome.crash "KeyError: status" :=
  ⟨c6_error_conversion.1 404 "404 Client Error",
   c6_error_conversion.2.2.2.2 [("status", JVal.jstr "weird")]
     "KeyError: status" (by simp [dictGet])⟩

/-- C7 counterexample: for a 200-row upload the code suggests
min(10, max(1, 20)) = 10 appended rows, while the claimed formula
max(1, round(200 times 0.1)) = 20 has no upper clamp; the two differ. -/
theorem c7_counterexample :
    rowsToAppendDefault 200 = 10 ∧ max 1 ((200 : Nat) / 10) = 20 ∧
    rowsToAppendDefault 200 ≠ max 1 ((200 : Nat) / 10) := by
  refine ⟨by decide, by decide, by decide⟩

/-- C7 amended: the default is 10 percent of the detected rows, truncated,
with a floor of 1 and an upper clamp of 10: below 100 detected rows it is
max(1, row_count / 10), from 100 rows on it is exactly 10, and in
particular a 100-row file suggests 10. -/
theorem c7_rows_default_clamped :
    (∀ n, 1 ≤ rowsToAppendDefault n ∧ rowsToAppendDefault n ≤ 10) ∧
    (∀ n, n < 100 → rowsToAppendDefault n = max 1 (n / 10)) ∧
    (∀ n, 100 ≤ n → rowsToAppendDefault n = 10) ∧
    rowsToAppendDefault 100 = 10 := by
  refine ⟨?_, ?_, ?_, by decide⟩ <;> intro n <;> simp [rowsToAppendDefault] <;> omega

/-- C7 amended witness: a 42-row file suggests 4 and a 250-row file is
clamped to 10. -/
theorem c7_rows_default_clamped_witness :
    rowsToAppendDefault 42 = max 1 (42 / 10) ∧ rowsToAppendDefault 250 = 10 :=
  ⟨c7_rows_default_clamped.2.1 42 (by decide),
   c7_rows_default_clamped.2.2.1 250 (by decide)⟩

/-- C8: a numeric column with neither bound entered is stored with no
constraints field; with only a minimum it is stored with exactly a `ge`
entry; and for every data type every attached constraint key is meaningful
for that type (`ge`/`le` only on numeric kinds, `min_length`/`max_length`
only on strings, nothing on any other kind). -/
theorem c8_constraint_attachment (s : SessionState) (name desc t : String) (v : Int)
    (minL maxL : Option Int) :
    ((t = "integer" ∨ t = "float") → name ≠ "" →
      ((addColumnSpec s name t desc none none minL maxL).columns.map
          ColumnSpec.constraints) =
        s.columns.map ColumnSpec.constraints ++ [none]) ∧
    ((t = "integer" ∨ t = "float") → name ≠ "" →
      ((addColumnSpec s name t desc (some v) none minL maxL).columns.map
          ColumnSpec.constraints) =
        s.columns.map ColumnSpec.constraints ++ [some [("ge", v)]]) ∧
    (∀ a b c d kv, kv ∈ buildConstraints t a b c d →
      kv.1 ∈ allowedConstraintKeys t) := by
  refine ⟨?_, ?_, ?_⟩
  · rintro (ht | ht) hn <;> subst ht <;> simp [addColumnSpec, buildConstraints, hn]
  · rintro (ht | ht) hn <;> subst ht <;> simp [addColumnSpec, buildConstraints, hn]
  · intro a b c d kv hkv
    unfold buildConstraints allowedConstraintKeys at *
    split_ifs at hkv ⊢
    · rcases a with _ | va <;> rcases b with _ | vb <;> simp_all <;>
        rcases hkv with h | h <;> simp [h]
    · rcases c with _ | vc <;> rcases d with _ | vd <;> simp_all <;>
        rcases hkv with h | h <;> simp [h]
    · simp_all

/-- C8 witness: a float column with only a minimum of 5 stores exactly a
`ge` constraint, and a boolean column attaches no constraint key. -/
theorem c8_constraint_attachment_witness :
    ((addColumnSpec initialSessionState "price" "float" "" (some 5) none none
        none).columns.map ColumnSpec.constraints) = [some [("ge", 5)]] ∧
    (∀ kv, kv ∈ buildConstraints "boolean" (some 1) (some 2) (some 3) (some 4) →
      kv.1 ∈ allowedConstraintKeys "boolean") :=
  ⟨(c8_constraint_attachment initialSessionState "price" "" "float" 5 none
      none).2.1 (Or.inr rfl) (by decide),
   fun kv hkv => (c8_constraint_attachment initialSessionState "x" "" "boolean" 0
      none none).2.2 (some 1) (some 2) (some 3) (some 4) kv hkv⟩

/-- C9 counterexample: column-name uniqueness is not enforced — adding the
name `age` twice yields a list whose names are `[age, age]`, which is not
duplicate-free. -/
theorem c9_counterexample :
    ((addColumnSpec
        (addColumnSpec initialSessionState "age" "integer" "" none none none none)
        "age" "integer" "" none none none none).columns.map ColumnSpec.name) =
      ["age", "age"] ∧
    ¬ ((addColumnSpec
        (addColumnSpec initialSessionState "age" "integer" "" none none none none)
        "age" "integer" "" none none none none).columns.map ColumnSpec.name).Nodup := by
  refine ⟨rfl, by decide⟩

/-- C9 amended: every name stored in the column list is non-empty (the Add
Column handler refuses an empty name and otherwise appends exactly one
column with the submitted name), the only other mutation is clearing the
whole list, and non-emptiness of all stored names is preserved — but
uniqueness of names is not enforced. -/
theorem c9_column_list_mutations (s : SessionState)
    (name t desc : String) (a b c d : Option Int) :
    (name = "" → (addColumnSpec s name t desc a b c d).columns = s.columns) ∧
    (name ≠ "" → ((addColumnSpec s name t desc a b c d).columns.map
        ColumnSpec.name) = s.columns.map ColumnSpec.name ++ [name]) ∧
    (clearAllColumns s).columns = [] ∧
    ((∀ col ∈ s.columns, col.name ≠ "") →
      ∀ col ∈ (addColumnSpec s name t desc a b c d).columns, col.name ≠ "") := by
  refine ⟨?_, ?_, rfl, ?_⟩
  · intro hn; simp [addColumnSpec, hn]
  · intro hn; simp [addColumnSpec, hn]
  · intro hall col hcol
    by_cases hn : name = ""
    · simp [addColumnSpec, hn] at hcol
      exact hall col hcol
    · simp [addColumnSpec, hn] at hcol
      rcases hcol with hcol | hcol
      · exact hall col hcol
      · rw [hcol]
        simpa using hn

/-- C9 amended witness: adding one column named `age` to the fresh session
appends exactly that name. -/
theorem c9_column_list_mutations_witness :
    ((addColumnSpec initialSessionState "age" "integer" "" none none none
        none).columns.map ColumnSpec.name) =
      initialSessionState.columns.map ColumnSpec.name ++ ["age"] :=
  (c9_column_list_mutations initialSessionState "age" "integer" "" none none
    none none).2.1 (by decide)

/-- C10: the append-job request takes its `model` field from the append
form text input (whose default is `gemma3:latest`) and its
`model_provider` field from the sidebar provider selectbox, so the pair can
be inconsistent: the default form model is not among the models of the
`google` provider, yet it is submitted together with that provider. -/
theorem c10_append_model_provenance (s : SessionState) (form_model provider : String)
    (rows batch : Nat) (par : Bool) (resp : Option JObj) (fid : JVal)
    (hfid : s.uploaded_file_id = some fid) (ht : pyTruthyVal (some fid) = true) :
    (appendDataSubmit s form_model provider rows batch par resp).2 =
      [ApiCall.appendData
        { file_id := fid, rows := rows, model := form_model,
          model_provider := provider, batch_size := batch, parallel := par }] ∧
    (∀ req, ApiCall.appendData req ∈
        (appendDataSubmit s form_model provider rows batch par resp).2 →
      req.model = form_model ∧ req.model_provider = provider) ∧
    appendFormModelDefault ∉ providerModels "google" := by
  have hcalls : (appendDataSubmit s form_model provider rows batch par resp).2 =
      [ApiCall.appendData
        { file_id := fid, rows := rows, model := form_model,
          model_provider := provider, batch_size := batch, parallel := par }] := by
    unfold appendDataSubmit
    rw [hfid]
    simp only [ht, if_true]
  refine ⟨hcalls, ?_, by decide⟩
  intro req hreq
  rw [hcalls] at hreq
  simp at hreq
  subst hreq
  exact ⟨rfl, rfl⟩

/-- C10 witness: with the default form model and the sidebar provider set
to `google`, the submitted request carries that mismatched pair. -/
theorem c10_append_model_provenance_witness :
    (appendDataSubmit
        { initialSessionState with uploaded_file_id := some (JVal.jstr "f1") }
        appendFormModelDefault "google" 10 10 false none).2 =
      [ApiCall.appendData
        { file_id := JVal.jstr "f1", rows := 10, model := appendFormModelDefault,
          model_provider := "google", batch_size := 10, parallel := false }] ∧
    appendFormModelDefault ∉ providerModels "google" :=
  ⟨(c10_append_model_provenance
      { initialSessionState with uploaded_file_id := some (JVal.jstr "f1") }
      appendFormModelDefault "google" 10 10 false none (JVal.jstr "f1")
      rfl (by decide)).1,
   (c10_append_model_provenance
      { initialSessionState with uploaded_file_id := some (JVal.jstr "f1") }
      appendFormModelDefault "google" 10 10 false none (JVal.jstr "f1")
      rfl (by decide)).2.2⟩
